import Mathlib

/-!
Formal model of the wikilite plugin execution engine
(`internal/plugin/runtime.go`, loader and store in the same package).

Machine words are modelled as `Nat` with explicit reduction modulo `2^32`;
strings are Lean `String`s, with Go's `[]byte(s)` conversion modelled as
UTF-8 encoding.
-/

/-- 2^32, the word modulus of the MD5 state (Go `uint32`). -/
def pow32 : Nat := 4294967296

/-- Addition modulo 2^32 (Go `uint32` addition). -/
def add32 (a b : Nat) : Nat := (a + b) % 4294967296

/-- Bitwise AND (word-bounded inputs stay word-bounded). -/
def and32 (a b : Nat) : Nat := Nat.land a b

/-- Bitwise OR. -/
def or32 (a b : Nat) : Nat := Nat.lor a b

/-- Bitwise XOR. -/
def xor32 (a b : Nat) : Nat := Nat.xor a b

/-- Bitwise NOT on a 32-bit word, as XOR with the all-ones word. -/
def not32 (a : Nat) : Nat := Nat.xor a 4294967295

/-- Left-rotation of a 32-bit word by `s` places (for `a < 2^32`, `0 < s < 32`):
the wrapped low part and the rotated-in high part occupy disjoint bit ranges,
so plain addition under the modulus realises the rotation. -/
def rotl32 (a s : Nat) : Nat := (a * 2 ^ s + a / 2 ^ (32 - s)) % 4294967296

/-- The MD5 round function F (round 1), RFC 1321. -/
def md5F (b c d : Nat) : Nat := or32 (and32 b c) (and32 (not32 b) d)

/-- The MD5 round function G (round 2). -/
def md5G (b c d : Nat) : Nat := or32 (and32 d b) (and32 (not32 d) c)

/-- The MD5 round function H (round 3). -/
def md5H (b c d : Nat) : Nat := xor32 b (xor32 c d)

/-- The MD5 round function I (round 4). -/
def md5I (b c d : Nat) : Nat := xor32 c (or32 b (not32 d))

/-- The 64 MD5 sine-derived constants (RFC 1321 table T). -/
def md5K : List Nat :=
  [0xd76aa478, 0xe8c7b756, 0x242070db, 0xc1bdceee,
   0xf57c0faf, 0x4787c62a, 0xa8304613, 0xfd469501,
   0x698098d8, 0x8b44f7af, 0xffff5bb1, 0x895cd7be,
   0x6b901122, 0xfd987193, 0xa679438e, 0x49b40821,
   0xf61e2562, 0xc040b340, 0x265e5a51, 0xe9b6c7aa,
   0xd62f105d, 0x02441453, 0xd8a1e681, 0xe7d3fbc8,
   0x21e1cde6, 0xc33707d6, 0xf4d50d87, 0x455a14ed,
   0xa9e3e905, 0xfcefa3f8, 0x676f02d9, 0x8d2a4c8a,
   0xfffa3942, 0x8771f681, 0x6d9d6122, 0xfde5380c,
   0xa4beea44, 0x4bdecfa9, 0xf6bb4b60, 0xbebfbc70,
   0x289b7ec6, 0xeaa127fa, 0xd4ef3085, 0x04881d05,
   0xd9d4d039, 0xe6db99e5, 0x1fa27cf8, 0xc4ac5665,
   0xf4292244, 0x432aff97, 0xab9423a7, 0xfc93a039,
   0x655b59c3, 0x8f0ccc92, 0xffeff47d, 0x85845dd1,
   0x6fa87e4f, 0xfe2ce6e0, 0xa3014314, 0x4e0811a1,
   0xf7537e82, 0xbd3af235, 0x2ad7d2bb, 0xeb86d391]

/-- The 64 MD5 per-step left-rotation amounts. -/
def md5S : List Nat :=
  [7, 12, 17, 22, 7, 12, 17, 22, 7, 12, 17, 22, 7, 12, 17, 22,
   5, 9, 14, 20, 5, 9, 14, 20, 5, 9, 14, 20, 5, 9, 14, 20,
   4, 11, 16, 23, 4, 11, 16, 23, 4, 11, 16, 23, 4, 11, 16, 23,
   6, 10, 15, 21, 6, 10, 15, 21, 6, 10, 15, 21, 6, 10, 15, 21]

/-- The running MD5 state: four 32-bit words. -/
structure MDState where
  a : Nat
  b : Nat
  c : Nat
  d : Nat
deriving DecidableEq

/-- The MD5 initial state (RFC 1321). -/
def md5Init : MDState := ⟨0x67452301, 0xefcdab89, 0x98badcfe, 0x10325476⟩

/-- One MD5 step `i` (0-based) on a block given as its word-lookup `m`. -/
def md5Step (m : Nat → Nat) (st : MDState) (i : Nat) : MDState :=
  let fg : Nat × Nat :=
    if i < 16 then (md5F st.b st.c st.d, i)
    else if i < 32 then (md5G st.b st.c st.d, (5 * i + 1) % 16)
    else if i < 48 then (md5H st.b st.c st.d, (3 * i + 5) % 16)
    else (md5I st.b st.c st.d, (7 * i) % 16)
  let tmp := add32 st.a (add32 fg.1 (add32 (md5K.getD i 0) (m fg.2)))
  ⟨st.d, add32 st.b (rotl32 tmp (md5S.getD i 0)), st.b, st.c⟩

/-- Process one 16-word block: 64 steps, then add the saved state back in. -/
def md5Block (st : MDState) (blk : List Nat) : MDState :=
  let fin := (List.range 64).foldl (md5Step fun g => blk.getD g 0) st
  ⟨add32 st.a fin.a, add32 st.b fin.b, add32 st.c fin.c, add32 st.d fin.d⟩

/-- Group a byte list into 32-bit words, little-endian (MD5 block layout). -/
def toWords : List Nat → List Nat
  | b0 :: b1 :: b2 :: b3 :: rest =>
      (b0 + 256 * (b1 + 256 * (b2 + 256 * b3))) :: toWords rest
  | _ => []

/-- Group a word list into 16-word blocks. -/
def toBlocks : List Nat → List (List Nat)
  | w0 :: w1 :: w2 :: w3 :: w4 :: w5 :: w6 :: w7 ::
    w8 :: w9 :: w10 :: w11 :: w12 :: w13 :: w14 :: w15 :: rest =>
      [w0, w1, w2, w3, w4, w5, w6, w7, w8, w9, w10, w11, w12, w13, w14, w15]
        :: toBlocks rest
  | _ => []

/-- A natural number as 8 little-endian bytes (the MD5 length field). -/
def le8 (n : Nat) : List Nat :=
  [n % 256, n / 256 % 256, n / 65536 % 256, n / 16777216 % 256,
   n / 4294967296 % 256, n / 1099511627776 % 256,
   n / 281474976710656 % 256, n / 72057594037927936 % 256]

/-- MD5 padding: a 0x80 byte, zeros to 56 mod 64, then the bit length. -/
def md5Pad (msg : List Nat) : List Nat :=
  let L := msg.length
  msg ++ [128] ++ List.replicate ((119 - L % 64) % 64) 0 ++ le8 (8 * L)

/-- The final MD5 state of a byte message. -/
def md5Words (msg : List Nat) : MDState :=
  (toBlocks (toWords (md5Pad msg))).foldl md5Block md5Init

/-- A 32-bit word as 4 little-endian bytes. -/
def le4 (n : Nat) : List Nat :=
  [n % 256, n / 256 % 256, n / 65536 % 256, n / 16777216 % 256]

/-- The 16 digest bytes of a byte message (Go `md5.Sum`). -/
def md5Bytes (msg : List Nat) : List Nat :=
  let st := md5Words msg
  le4 st.a ++ le4 st.b ++ le4 st.c ++ le4 st.d

/-- One lowercase hex digit. -/
def hexDigit (n : Nat) : Char :=
  List.getD ("0123456789abcdef").data n '0'

/-- A byte as two lowercase hex digits (Go `hex.EncodeToString`, per byte). -/
def hexByte (b : Nat) : List Char := [hexDigit (b / 16), hexDigit (b % 16)]

/-- A byte list as a lowercase hex string. -/
def bytesToHex (bs : List Nat) : String :=
  String.mk (bs.foldr (fun b acc => hexByte b ++ acc) [])

/-- UTF-8 encoding of one character (Go string-to-bytes conversion). -/
def utf8Bytes (c : Char) : List Nat :=
  let n := c.toNat
  if n < 128 then [n]
  else if n < 2048 then [192 + n / 64, 128 + n % 64]
  else if n < 65536 then [224 + n / 4096, 128 + n / 64 % 64, 128 + n % 64]
  else [240 + n / 262144, 128 + n / 4096 % 64, 128 + n / 64 % 64, 128 + n % 64]

/-- The UTF-8 bytes of a string (Go `[]byte(s)`). -/
def strBytes (s : String) : List Nat :=
  s.data.foldr (fun c acc => utf8Bytes c ++ acc) []

/-- Lowercase hex MD5 digest of a string, as the runtime computes it:
`hex.EncodeToString(md5.Sum([]byte(s)))`. -/
def md5hex (s : String) : String := bytesToHex (md5Bytes (strBytes s))

/-!
## The sandbox side: plugins and the JS executors

A plugin's evaluated script is represented by its export object
(`initVM` wraps each script so that only `onArticleRender` and `onAction`
are exported).  Property lookup on the export object is modelled by the
`hooks` function; a hook invocation either returns a JS value — of which
only stringness matters to `__run_pipeline` — or throws.
-/

/-- A JS value as seen by the pipeline runner: only strings are
distinguished (the runner tests `typeof res === 'string'`). -/
inductive JSVal where
  | str (s : String)
  | other
deriving DecidableEq

/-- Outcome of invoking a plugin hook on the running content. -/
inductive HookOut where
  | ret (v : JSVal)
  | thrown (msg : String)
deriving DecidableEq

/-- A JS value returned by `onAction`, as far as the Go side inspects it:
an object with (or without) a string `error` property, a non-object
JSON value, or `undefined` (whose `JSON.stringify` is not a string). -/
inductive ActionVal where
  | undef
  | obj (errField : Option String) (rest : String)
  | nonObj (repr : String)
deriving DecidableEq

/-- Outcome of invoking `onAction`: a value, or an uncaught throw
(`__run_plugin_action` does not catch, so a throw is fatal to the job). -/
inductive ActionOut where
  | ret (v : ActionVal)
  | thrown (msg : String)
deriving DecidableEq

/-- A loaded plugin at runtime: its id and order from the loader, and its
evaluated export object (`hooks` models property lookup `p[hook]`;
`onAction` models `p.onAction` as called by the action runner with the
action name and the raw payload string). -/
structure PluginRT where
  id : String
  order : Int
  hooks : String → Option (String → HookOut)
  onAction : Option (String → String → ActionOut)

/-- A non-fatal per-plugin pipeline error (`plugin.Error` in Go). -/
structure PError where
  pluginID : String
  hook : String
  error : String
deriving DecidableEq

/-- Result of `__run_pipeline`, with an additional ghost trace `calls`
recording the ids of plugins whose hook function was actually invoked
(used to state that a plugin did or did not run; not part of the JS
return value). -/
structure PipeOut where
  content : String
  errors : List PError
  calls : List String
deriving DecidableEq

/-- One iteration of the `__run_pipeline` loop body for plugin `p`:
the new running content, the error pushed (if the hook threw), and
whether the hook was invoked at all.  A missing hook is skipped; a
non-string return leaves the content unchanged. -/
def applyHook (p : PluginRT) (hook content : String) :
    String × Option PError × Bool :=
  match p.hooks hook with
  | none => (content, none, false)
  | some f =>
    match f content with
    | .ret (.str s) => (s, none, true)
    | .ret .other => (content, none, true)
    | .thrown m => (content, some ⟨p.id, hook, m⟩, true)

/-- The JS pipeline runner `__run_pipeline`: iterate the plugin list in
order, substitute each string result as the next input, record throws
without aborting. -/
def runPipeline : List PluginRT → String → String → PipeOut
  | [], _, content => ⟨content, [], []⟩
  | p :: ps, hook, content =>
    let step := applyHook p hook content
    let rest := runPipeline ps hook step.1
    ⟨rest.content, step.2.1.toList ++ rest.errors,
      (if step.2.2 then [p.id] else []) ++ rest.calls⟩

/-- Lookup of `globalThis['PLUGIN_' + pid]` among the loaded plugins. -/
def findPlugin (plugins : List PluginRT) (pid : String) : Option PluginRT :=
  plugins.find? (fun p => p.id == pid)

/-- The JS action runner `__run_plugin_action`: resolve one plugin by id
and call its `onAction`, or return the structured not-found object. -/
def runPluginAction (plugins : List PluginRT) (pid action payload : String) :
    ActionOut :=
  match findPlugin plugins pid with
  | some p =>
    match p.onAction with
    | some f => f action payload
    | none => .ret (.obj (some "Plugin or action not found") "")
  | none => .ret (.obj (some "Plugin or action not found") "")

/-- `JSON.stringify` of an action result, structurally: `undefined`
serializes to no string at all (the Go side then sees a non-string);
the exact text of the other cases is immaterial to the runtime, which
only decodes the `error` field. -/
def stringifyAction : ActionVal → Option String
  | .undef => none
  | .obj (some e) rest =>
      some ("\x7b\"error\":\"" ++ e ++ "\"" ++ rest ++ "\x7d")
  | .obj none rest => some ("\x7b" ++ rest ++ "\x7d")
  | .nonObj r => some r

/-!
## The worker side: job processing

`processPipelineJob` and `processActionJob` decode the executor's
JSON string.  The JSON round trip between `__run_pipeline_json` /
`__run_plugin_action_json` and `json.Unmarshal` is modelled as
structure-preserving; in particular a pipeline job in this model never
fails fatally, because the runner always returns well-formed JSON.
-/

/-- The reply written to a job's reply channel (`jobResponse`). -/
structure JobResponse where
  err : Option String
  result : String
  errors : List PError
deriving DecidableEq

/-- Worker handling of a pipeline job (`processPipelineJob`). -/
def processPipelineJob (plugins : List PluginRT) (hook input : String) :
    JobResponse :=
  let out := runPipeline plugins hook input
  ⟨none, out.content, out.errors⟩

/-- Worker handling of an action job (`processActionJob`): a throw from
`onAction` is a fatal `vm.Call` error; an `undefined` result is the
"unexpected action result type" error; a decoded non-empty `error`
field becomes a "plugin action error"; anything else passes the
serialized value through. -/
def processActionJob (plugins : List PluginRT) (pid action payload : String) :
    JobResponse :=
  match runPluginAction plugins pid action payload with
  | .thrown m => ⟨some m, "", []⟩
  | .ret v =>
    match stringifyAction v with
    | none => ⟨some "unexpected action result type", "", []⟩
    | some resStr =>
      match v with
      | .obj (some e) _ =>
        if e ≠ "" then ⟨some ("plugin action error: " ++ e), "", []⟩
        else ⟨none, resStr, []⟩
      | _ => ⟨none, resStr, []⟩

/-!
## The dispatcher side: context, cache key, cache, public operations

`contextData` is a Go `map[string]any` that may be nil; the runtime only
inspects the `"Slug"` key (string assertion) and the `"User"` key
(`*models.User` assertion, possibly a nil pointer, whose `Role` is an
int).  The TTL cache is modelled as an association list; expiry and
capacity eviction are not modelled (claims about hits assume the entry
is still present, as the spec does).
-/

/-- A value stored in the context map, as far as the runtime inspects it. -/
inductive CtxVal where
  | vstr (s : String)
  | vuser (role : Option Int)
  | vother
deriving DecidableEq

/-- The context map; `none` is a nil map. -/
def ContextData : Type := Option (List (String × CtxVal))

/-- Map lookup (first binding wins; Go maps have unique keys). -/
def ctxLookup (m : List (String × CtxVal)) (k : String) : Option CtxVal :=
  (m.find? (fun kv => kv.1 == k)).map (·.2)

/-- The slug extraction of `ExecutePipeline` / `ExecutePluginAction`:
`contextData["Slug"].(string)`, with `""` when the map is nil, the key
is absent, or the value is not a string. -/
def slugOf (ctx : ContextData) : String :=
  match ctx with
  | none => ""
  | some m =>
    match ctxLookup m "Slug" with
    | some (.vstr s) => s
    | _ => ""

/-- The role extraction of `ExecutePipeline`:
`int(contextData["User"].(*models.User).Role)` guarded by the type
assertion and a nil check, default 0. -/
def roleOf (ctx : ContextData) : Int :=
  match ctx with
  | none => 0
  | some m =>
    match ctxLookup m "User" with
    | some (.vuser (some r)) => r
    | _ => 0

/-- The pipeline cache key:
`fmt.Sprintf("pipeline:%s:%s:%s:%d", hook, slug, hex(md5(content)), role)`. -/
def pipelineCacheKey (hook slug content : String) (role : Int) : String :=
  "pipeline:" ++ hook ++ ":" ++ slug ++ ":" ++ md5hex content ++ ":"
    ++ toString role

/-- The `cacheKey` variable of `ExecutePipeline`: computed only when the
slug is non-empty and the hook is the render hook, otherwise left `""`. -/
def computedCacheKey (hook content : String) (ctx : ContextData) : String :=
  if slugOf ctx ≠ "" ∧ hook = "onArticleRender" then
    pipelineCacheKey hook (slugOf ctx) content (roleOf ctx)
  else ""

/-- The result cache, as an association list from key to rendered content. -/
def Cache : Type := List (String × String)

/-- Cache lookup (`cache.Get`). -/
def cacheGet (c : Cache) (k : String) : Option String :=
  (c.find? (fun kv => kv.1 == k)).map (·.2)

/-- Cache insertion (`cache.Set`), overwriting any entry with the key. -/
def cacheSet (c : Cache) (k v : String) : Cache :=
  (k, v) :: c.filter (fun kv => kv.1 != k)

/-- Whether `sub` occurs contiguously at the head of `l`. -/
def beginsList : List Char → List Char → Bool
  | [], _ => true
  | _ :: _, [] => false
  | a :: as, b :: bs => a == b && beginsList as bs

/-- Whether `t` occurs contiguously anywhere in `l`. -/
def occursIn : List Char → List Char → Bool
  | t, [] => t.isEmpty
  | t, c :: rest => beginsList t (c :: rest) || occursIn t rest

/-- Go `strings.Contains s t`. -/
def strContains (s t : String) : Bool := occursIn t.data s.data

/-- The cache invalidation of `ExecutePluginAction`: delete every entry
whose key contains `":" + slug + ":"` as a substring. -/
def invalidateSlug (c : Cache) (slug : String) : Cache :=
  c.filter (fun kv => !(strContains kv.1 (":" ++ slug ++ ":")))

/-- The full observable outcome of one `ExecutePipeline` call: the three
returned values, the cache afterwards, whether a job was enqueued to the
worker pool, and which plugin hooks the job invoked (ghost trace; empty
on a cache hit). -/
structure ExecOut where
  result : String
  errors : List PError
  fatal : Option String
  cache : Cache
  enqueued : Bool
  calls : List String

/-- `Manager.ExecutePipeline`: compute the cache key when slug and hook
allow, return a hit synchronously, otherwise run the job on the worker
pool and populate the cache only on a fully clean run with a key. -/
def ExecutePipeline (plugins : List PluginRT) (cache : Cache)
    (hookName initialInput : String) (ctx : ContextData) : ExecOut :=
  let ck := computedCacheKey hookName initialInput ctx
  match (if ck ≠ "" then cacheGet cache ck else none) with
  | some v => ⟨v, [], none, cache, false, []⟩
  | none =>
    let run := runPipeline plugins hookName initialInput
    let resp : JobResponse := ⟨none, run.content, run.errors⟩
    let cache2 :=
      if resp.err = none ∧ resp.errors = [] ∧ ck ≠ "" then
        cacheSet cache ck resp.result
      else cache
    ⟨resp.result, resp.errors, resp.err, cache2, true, run.calls⟩

/-- The full observable outcome of one `ExecutePluginAction` call. -/
structure ActExecOut where
  result : String
  err : Option String
  cache : Cache

/-- `Manager.ExecutePluginAction`: run the action job, then on success,
if the context carries a non-empty slug string, delete every cache entry
whose key contains `":" + slug + ":"`. -/
def ExecutePluginAction (plugins : List PluginRT) (cache : Cache)
    (pluginID action payload : String) (ctx : ContextData) : ActExecOut :=
  let resp := processActionJob plugins pluginID action payload
  if resp.err = none then
    match ctx with
    | none => ⟨resp.result, resp.err, cache⟩
    | some m =>
      match ctxLookup m "Slug" with
      | some (.vstr s) =>
        if s ≠ "" then ⟨resp.result, resp.err, invalidateSlug cache s⟩
        else ⟨resp.result, resp.err, cache⟩
      | _ => ⟨resp.result, resp.err, cache⟩
  else ⟨resp.result, resp.err, cache⟩

/-!
## The Host API storage bridge

The persistent store is `BoltStore` (bbolt): one bucket per plugin id.
An I/O failure of an operation is modelled by a per-call `fault` flag:
the transaction fails, the callback never runs, and the Go zero values
are returned alongside the error — exactly the situation in which the
bridge's `val, _ :=` / `keys, _ :=` pattern swallows the error.
-/

/-- The store contents: buckets keyed by plugin id, each an association
list from key to value. -/
def StoreState : Type := List (String × List (String × String))

/-- Bucket lookup (`tx.Bucket`). -/
def bucketOf (st : StoreState) (pid : String) :
    Option (List (String × String)) :=
  (st.find? (fun b => b.1 == pid)).map (·.2)

/-- `BoltStore.Get`: nil bucket or missing key leave the zero value. -/
def boltGet (st : StoreState) (fault : Bool) (pid key : String) :
    String × Option String :=
  if fault then ("", some "plugin db error")
  else
    match bucketOf st pid with
    | none => ("", none)
    | some b =>
      match (b.find? (fun kv => kv.1 == key)).map (·.2) with
      | some v => (v, none)
      | none => ("", none)

/-- `BoltStore.Set`: create the bucket if needed and put the pair. -/
def boltSet (st : StoreState) (fault : Bool) (pid key val : String) :
    StoreState × Option String :=
  if fault then (st, some "plugin db error")
  else
    match bucketOf st pid with
    | none => ((pid, [(key, val)]) :: st, none)
    | some b =>
      ((pid, (key, val) :: b.filter (fun kv => kv.1 != key))
        :: st.filter (fun bb => bb.1 != pid), none)

/-- `BoltStore.Delete`: a missing bucket is a no-op success. -/
def boltDelete (st : StoreState) (fault : Bool) (pid key : String) :
    StoreState × Option String :=
  if fault then (st, some "plugin db error")
  else
    match bucketOf st pid with
    | none => (st, none)
    | some b =>
      ((pid, b.filter (fun kv => kv.1 != key))
        :: st.filter (fun bb => bb.1 != pid), none)

/-- `BoltStore.List`: all keys of the bucket with the given prefix. -/
def boltList (st : StoreState) (fault : Bool) (pid pfx : String) :
    List String × Option String :=
  if fault then ([], some "plugin db error")
  else
    match bucketOf st pid with
    | none => ([], none)
    | some b =>
      ((b.map (·.1)).filter (fun k => beginsList pfx.data k.data), none)

/-- The registered `__internal_storage_get`: `val, _ := Store.Get`. -/
def hostStorageGet (st : StoreState) (fault : Bool) (pid key : String) :
    String :=
  (boltGet st fault pid key).1

/-- The registered `__internal_storage_set`: 1 on nil error, else 0
(returned alongside the updated store contents). -/
def hostStorageSet (st : StoreState) (fault : Bool) (pid key val : String) :
    StoreState × Int :=
  let r := boltSet st fault pid key val
  (r.1, if r.2 == none then 1 else 0)

/-- The registered `__internal_storage_delete`: 1 on nil error, else 0. -/
def hostStorageDelete (st : StoreState) (fault : Bool) (pid key : String) :
    StoreState × Int :=
  let r := boltDelete st fault pid key
  (r.1, if r.2 == none then 1 else 0)

/-- The `Host.storage.list` shim end to end: `keys, _ := Store.List`,
`json.Marshal(keys)` (a nil slice marshals to `null`), `JSON.parse`,
then `parsed || []` — so a nil or empty key list comes back as the
empty array. -/
def hostStorageList (st : StoreState) (fault : Bool) (pid pfx : String) :
    List String :=
  match (boltList st fault pid pfx).1 with
  | [] => []
  | ks => ks

/-!
## The loader

`loadFromDirectory` sorts the discovered plugins ascending by `Order`
(`sort.Slice`, which is unstable: ties are in unspecified order, as the
spec notes).  The sort is modelled by insertion sort, which produces a
sorted permutation just as `sort.Slice` does.
-/

/-- Insert a plugin into a list sorted ascending by order. -/
def insertByOrder (p : PluginRT) : List PluginRT → List PluginRT
  | [] => [p]
  | q :: qs =>
    if p.order ≤ q.order then p :: q :: qs else q :: insertByOrder p qs

/-- The loader's ascending sort of the plugin list by `Order`. -/
def sortPlugins : List PluginRT → List PluginRT
  | [] => []
  | p :: ps => insertByOrder p (sortPlugins ps)

/-!
## Test fixtures and shared lemmas
-/

set_option maxRecDepth 40000

/-- A plugin exporting only `onArticleRender`, applying `t` to the content. -/
def mapRender (pid : String) (ord : Int) (t : String → String) : PluginRT :=
  ⟨pid, ord,
    fun h => if h == "onArticleRender" then some (fun c => .ret (.str (t c)))
             else none,
    none⟩

/-- A plugin appending a fixed tag to the rendered content. -/
def appendRender (pid : String) (ord : Int) (tag : String) : PluginRT :=
  mapRender pid ord (fun c => c ++ tag)

/-- A plugin whose `onArticleRender` always throws. -/
def throwRender (pid : String) (ord : Int) (msg : String) : PluginRT :=
  ⟨pid, ord,
    fun h => if h == "onArticleRender" then some (fun _ => .thrown msg)
             else none,
    none⟩

/-- A plugin whose `onAction` succeeds with a plain object result. -/
def actionOkPlugin (pid : String) (ord : Int) : PluginRT :=
  ⟨pid, ord, fun _ => none, some (fun _ _ => .ret (.obj none ""))⟩

/-- A plugin whose `onArticleRender` returns a non-string JS value. -/
def nonStringRender (pid : String) (ord : Int) : PluginRT :=
  ⟨pid, ord,
    fun h => if h == "onArticleRender" then some (fun _ => .ret .other)
             else none,
    none⟩

/-- The MD5 state of a string's bytes, reduced into four 32-bit residues;
since the digest words are below 2^32 (shown separately) and the cache
key is a function of them, this maps contents into a finite type. -/
def digestFin (s : String) : Fin pow32 × Fin pow32 × Fin pow32 × Fin pow32 :=
  ⟨⟨(md5Words (strBytes s)).a % pow32, Nat.mod_lt _ (by norm_num [pow32])⟩,
   ⟨(md5Words (strBytes s)).b % pow32, Nat.mod_lt _ (by norm_num [pow32])⟩,
   ⟨(md5Words (strBytes s)).c % pow32, Nat.mod_lt _ (by norm_num [pow32])⟩,
   ⟨(md5Words (strBytes s)).d % pow32, Nat.mod_lt _ (by norm_num [pow32])⟩⟩

/-- A family of pairwise distinct contents, used only to exhibit that
infinitely many contents share finitely many digests. -/
def mkStr (n : Nat) : String := String.mk (List.replicate n 'a')

theorem insertByOrder_perm (p : PluginRT) (l : List PluginRT) :
    (insertByOrder p l).Perm (p :: l) := by
  induction l with
  | nil => simp [insertByOrder]
  | cons q qs ih =>
    simp only [insertByOrder]
    by_cases h : p.order ≤ q.order
    · rw [if_pos h]
    · rw [if_neg h]
      exact (ih.cons q).trans (List.Perm.swap p q qs)

theorem sortPlugins_perm (l : List PluginRT) : (sortPlugins l).Perm l := by
  induction l with
  | nil => simp [sortPlugins]
  | cons p ps ih =>
    exact (insertByOrder_perm p (sortPlugins ps)).trans (ih.cons p)

theorem insertByOrder_pairwise (p : PluginRT) (l : List PluginRT)
    (h : l.Pairwise (fun a b => a.order ≤ b.order)) :
    (insertByOrder p l).Pairwise (fun a b => a.order ≤ b.order) := by
  induction l with
  | nil => simp [insertByOrder]
  | cons q qs ih =>
    rcases List.pairwise_cons.1 h with ⟨hq, hqs⟩
    simp only [insertByOrder]
    by_cases hpq : p.order ≤ q.order
    · rw [if_pos hpq]
      refine List.pairwise_cons.2 ⟨?_, h⟩
      intro b hb
      rcases List.mem_cons.1 hb with rfl | hb2
      · exact hpq
      · exact le_trans hpq (hq b hb2)
    · rw [if_neg hpq]
      refine List.pairwise_cons.2 ⟨?_, ih hqs⟩
      intro b hb
      rcases List.mem_cons.1 ((insertByOrder_perm p qs).mem_iff.1 hb) with
        rfl | hb2
      · exact le_of_lt (lt_of_not_le hpq)
      · exact hq b hb2

theorem sortPlugins_pairwise (l : List PluginRT) :
    (sortPlugins l).Pairwise (fun a b => a.order ≤ b.order) := by
  induction l with
  | nil => simp [sortPlugins]
  | cons p ps ih => exact insertByOrder_pairwise p _ ih

/-- C1: in every pipeline job the plugin hooks run in strictly ascending
plugin order (the loader sorts ascending, strictly so when orders are
distinct), each plugin's string output feeds the next plugin; concretely,
two plugins of order 2 (appending "-B") and order 10 (appending "-A")
turn "X" into "X-B-A" with no errors, invoked lower order first. -/
theorem C1_pipeline_ordering (l : List PluginRT)
    (hnd : (l.map (fun p => p.order)).Nodup) :
    ((sortPlugins l).Pairwise (fun a b => a.order < b.order)
      ∧ (sortPlugins l).Perm l)
    ∧ (∀ (p : PluginRT) (ps : List PluginRT) (hook c : String),
        (runPipeline (p :: ps) hook c).content
          = (runPipeline ps hook (applyHook p hook c).1).content)
    ∧ (ExecutePipeline
        (sortPlugins [appendRender "a" 10 "-A", appendRender "b" 2 "-B"])
        [] "onArticleRender" "X" none).result = "X-B-A"
    ∧ (ExecutePipeline
        (sortPlugins [appendRender "a" 10 "-A", appendRender "b" 2 "-B"])
        [] "onArticleRender" "X" none).calls = ["b", "a"] := by
  refine ⟨⟨?_, sortPlugins_perm l⟩, ?_, by decide, by decide⟩
  · have hperm := sortPlugins_perm l
    have hnd2 : ((sortPlugins l).map (fun p => p.order)).Nodup :=
      ((hperm.map (fun p => p.order)).nodup_iff).2 hnd
    have hne : (sortPlugins l).Pairwise (fun a b => a.order ≠ b.order) :=
      List.pairwise_map.1 hnd2
    exact ((sortPlugins_pairwise l).and hne).imp
      (fun hab => lt_of_le_of_ne hab.1 hab.2)
  · intro p ps hook c
    rfl

/-- Closed instance of C1: the two-plugin manager is sorted strictly
ascending and renders "X" to "X-B-A". -/
theorem C1_pipeline_ordering_witness :
    ((sortPlugins [appendRender "a" 10 "-A", appendRender "b" 2 "-B"]).Pairwise
      (fun a b => a.order < b.order))
    ∧ (ExecutePipeline
        (sortPlugins [appendRender "a" 10 "-A", appendRender "b" 2 "-B"])
        [] "onArticleRender" "X" none).result = "X-B-A" :=
  ⟨(C1_pipeline_ordering [appendRender "a" 10 "-A", appendRender "b" 2 "-B"]
      (by decide)).1.1,
   (C1_pipeline_ordering [appendRender "a" 10 "-A", appendRender "b" 2 "-B"]
      (by decide)).2.2.1⟩

theorem runPipeline_append (l1 l2 : List PluginRT) (hook c : String) :
    runPipeline (l1 ++ l2) hook c =
      ⟨(runPipeline l2 hook (runPipeline l1 hook c).content).content,
       (runPipeline l1 hook c).errors
         ++ (runPipeline l2 hook (runPipeline l1 hook c).content).errors,
       (runPipeline l1 hook c).calls
         ++ (runPipeline l2 hook (runPipeline l1 hook c).content).calls⟩ := by
  induction l1 generalizing c with
  | nil => simp [runPipeline]
  | cons p ps ih =>
    simp only [List.cons_append, runPipeline, List.append_eq]
    rw [ih]
    simp [List.append_assoc]

/-- C2: a throwing plugin hook inside a pipeline is recorded as one
non-fatal plugin error carrying its id, the hook and the message, while
every plugin before and after it still runs on the properly threaded
content; concretely a throwing plugin between two well-behaved plugins
yields both transformations and exactly one error. -/
theorem C2_fault_isolation :
    (∀ (l1 l2 : List PluginRT) (p : PluginRT) (hook c msg : String)
       (f : String → HookOut),
       p.hooks hook = some f →
       f (runPipeline l1 hook c).content = .thrown msg →
       runPipeline (l1 ++ p :: l2) hook c =
         ⟨(runPipeline l2 hook (runPipeline l1 hook c).content).content,
          (runPipeline l1 hook c).errors
            ++ ⟨p.id, hook, msg⟩
              :: (runPipeline l2 hook (runPipeline l1 hook c).content).errors,
          (runPipeline l1 hook c).calls
            ++ p.id
              :: (runPipeline l2 hook (runPipeline l1 hook c).content).calls⟩)
    ∧ (∀ (t1 t2 : String → String) (msg c : String),
       runPipeline
         [mapRender "g1" 1 t1, throwRender "bad" 2 msg, mapRender "g2" 3 t2]
         "onArticleRender" c
         = ⟨t2 (t1 c), [⟨"bad", "onArticleRender", msg⟩],
            ["g1", "bad", "g2"]⟩) := by
  constructor
  · intro l1 l2 p hook c msg f hf hth
    have happ : applyHook p hook (runPipeline l1 hook c).content
        = ((runPipeline l1 hook c).content,
           some ⟨p.id, hook, msg⟩, true) := by
      simp [applyHook, hf, hth]
    rw [runPipeline_append]
    simp only [runPipeline, happ]
    simp
  · intro t1 t2 msg c
    rfl

/-- Closed instance of C2: both well-behaved transformations applied and
exactly one plugin error reported around a throwing plugin. -/
theorem C2_fault_isolation_witness :
    runPipeline
      [mapRender "g1" 1 (fun s => s ++ "-1"), throwRender "bad" 2 "boom",
       mapRender "g2" 3 (fun s => s ++ "-2")]
      "onArticleRender" "X"
      = ⟨"X-1-2", [⟨"bad", "onArticleRender", "boom"⟩],
         ["g1", "bad", "g2"]⟩ :=
  (C2_fault_isolation.2 (fun s => s ++ "-1") (fun s => s ++ "-2") "boom"
    "X").trans (by decide)

theorem pipelineCacheKey_ne_empty (hook slug content : String) (role : Int) :
    pipelineCacheKey hook slug content role ≠ "" := by
  intro h
  have h2 := congrArg String.length h
  simp only [pipelineCacheKey, String.length_append] at h2
  have h9 : ("pipeline:" : String).length = 9 := rfl
  have h0 : ("" : String).length = 0 := rfl
  omega

theorem cacheGet_cacheSet (c : Cache) (k v : String) :
    cacheGet (cacheSet c k v) k = some v := by
  simp [cacheGet, cacheSet, List.find?]

theorem computedCacheKey_iff (hook input : String) (ctx : ContextData) :
    computedCacheKey hook input ctx ≠ ""
      ↔ slugOf ctx ≠ "" ∧ hook = "onArticleRender" := by
  unfold computedCacheKey
  by_cases h : slugOf ctx ≠ "" ∧ hook = "onArticleRender"
  · rw [if_pos h]
    exact ⟨fun _ => h, fun _ => pipelineCacheKey_ne_empty _ _ _ _⟩
  · rw [if_neg h]
    simp [h]

/-- C3: an enqueued pipeline job writes its result to the cache exactly
when it finished with no fatal error, an empty plugin-error list and a
computed cache key (render hook with a non-empty slug); a cache hit, a
run with plugin errors, or a run without a key leaves the cache
unchanged. -/
theorem C3_cache_write_iff (plugins : List PluginRT) (cache : Cache)
    (hook input : String) (ctx : ContextData) :
    ((ExecutePipeline plugins cache hook input ctx).enqueued = true →
      (ExecutePipeline plugins cache hook input ctx).cache
        = (if (ExecutePipeline plugins cache hook input ctx).fatal = none
              ∧ (ExecutePipeline plugins cache hook input ctx).errors = []
              ∧ computedCacheKey hook input ctx ≠ ""
           then cacheSet cache (computedCacheKey hook input ctx)
                  (ExecutePipeline plugins cache hook input ctx).result
           else cache))
    ∧ ((ExecutePipeline plugins cache hook input ctx).enqueued = false →
        (ExecutePipeline plugins cache hook input ctx).cache = cache)
    ∧ ((ExecutePipeline plugins cache hook input ctx).errors ≠ [] →
        (ExecutePipeline plugins cache hook input ctx).cache = cache)
    ∧ (computedCacheKey hook input ctx ≠ ""
        ↔ slugOf ctx ≠ "" ∧ hook = "onArticleRender") := by
  refine ⟨?_, ?_, ?_, computedCacheKey_iff hook input ctx⟩
  · cases hm : (if computedCacheKey hook input ctx ≠ "" then
        cacheGet cache (computedCacheKey hook input ctx) else none) with
    | some v => simp [ExecutePipeline, hm]
    | none => simp [ExecutePipeline, hm]
  · cases hm : (if computedCacheKey hook input ctx ≠ "" then
        cacheGet cache (computedCacheKey hook input ctx) else none) with
    | some v => simp [ExecutePipeline, hm]
    | none => simp [ExecutePipeline, hm]
  · cases hm : (if computedCacheKey hook input ctx ≠ "" then
        cacheGet cache (computedCacheKey hook input ctx) else none) with
    | some v => simp [ExecutePipeline, hm]
    | none =>
      intro h
      simp only [ExecutePipeline, hm] at h
      simp [ExecutePipeline, hm, h]

/-- Closed instance of C3: a clean render run with a slug writes its
result to the cache, and a run with a plugin error leaves the cache
unchanged. -/
theorem C3_cache_write_iff_witness :
    ((ExecutePipeline [appendRender "p" 1 "-A"] [] "onArticleRender" "X"
        (some [("Slug", CtxVal.vstr "s")])).cache
      = (if (ExecutePipeline [appendRender "p" 1 "-A"] [] "onArticleRender"
              "X" (some [("Slug", CtxVal.vstr "s")])).fatal = none
            ∧ (ExecutePipeline [appendRender "p" 1 "-A"] [] "onArticleRender"
                "X" (some [("Slug", CtxVal.vstr "s")])).errors = []
            ∧ computedCacheKey "onArticleRender" "X"
                (some [("Slug", CtxVal.vstr "s")]) ≠ ""
         then cacheSet []
                (computedCacheKey "onArticleRender" "X"
                  (some [("Slug", CtxVal.vstr "s")]))
                (ExecutePipeline [appendRender "p" 1 "-A"] [] "onArticleRender"
                  "X" (some [("Slug", CtxVal.vstr "s")])).result
         else []))
    ∧ (ExecutePipeline [throwRender "t" 1 "boom"] [] "onArticleRender" "X"
        (some [("Slug", CtxVal.vstr "s")])).cache = [] :=
  ⟨(C3_cache_write_iff [appendRender "p" 1 "-A"] [] "onArticleRender" "X"
      (some [("Slug", CtxVal.vstr "s")])).1 (by decide),
   (C3_cache_write_iff [throwRender "t" 1 "boom"] [] "onArticleRender" "X"
      (some [("Slug", CtxVal.vstr "s")])).2.2.1 (by decide)⟩

/-- C4: when a first pipeline call with a computed cache key finished
with no errors, a second call with the same hook, content, slug and role
— possibly with entirely different plugin behavior, modelling
non-deterministic plugins — returns the first call's result byte for
byte from the cache, enqueues no job, invokes no plugin and leaves the
cache as it was. -/
theorem C4_cache_hit (plugins plugins2 : List PluginRT) (cache : Cache)
    (hook input : String) (ctx ctx2 : ContextData)
    (hslug : slugOf ctx2 = slugOf ctx) (hrole : roleOf ctx2 = roleOf ctx)
    (hck : computedCacheKey hook input ctx ≠ "")
    (hclean : (ExecutePipeline plugins cache hook input ctx).errors = []) :
    (ExecutePipeline plugins2
        (ExecutePipeline plugins cache hook input ctx).cache
        hook input ctx2).result
      = (ExecutePipeline plugins cache hook input ctx).result
    ∧ (ExecutePipeline plugins2
        (ExecutePipeline plugins cache hook input ctx).cache
        hook input ctx2).enqueued = false
    ∧ (ExecutePipeline plugins2
        (ExecutePipeline plugins cache hook input ctx).cache
        hook input ctx2).calls = []
    ∧ (ExecutePipeline plugins2
        (ExecutePipeline plugins cache hook input ctx).cache
        hook input ctx2).cache
      = (ExecutePipeline plugins cache hook input ctx).cache := by
  have hck2 : computedCacheKey hook input ctx2
      = computedCacheKey hook input ctx := by
    simp only [computedCacheKey, hslug, hrole]
  have hpresent : cacheGet (ExecutePipeline plugins cache hook input ctx).cache
      (computedCacheKey hook input ctx)
      = some (ExecutePipeline plugins cache hook input ctx).result := by
    cases hm : (if computedCacheKey hook input ctx ≠ "" then
        cacheGet cache (computedCacheKey hook input ctx) else none) with
    | some v =>
      have hv : cacheGet cache (computedCacheKey hook input ctx) = some v := by
        rwa [if_pos hck] at hm
      simp [ExecutePipeline, hm, hck, hv]
    | none =>
      simp only [ExecutePipeline, hm] at hclean ⊢
      simp [hclean, hck, cacheGet_cacheSet]
  set o1 := ExecutePipeline plugins cache hook input ctx with ho1
  simp only [ExecutePipeline, hck2]
  rw [if_pos hck, hpresent]
  exact ⟨rfl, rfl, rfl, rfl⟩

/-- Closed instance of C4: after a clean cached render of "X" through a
plugin appending "-1", a second call against a plugin that would append
"-2" still returns "X-1" from the cache without enqueuing a job. -/
theorem C4_cache_hit_witness :
    (ExecutePipeline [appendRender "p1" 1 "-2"]
        (ExecutePipeline [appendRender "p1" 1 "-1"] [] "onArticleRender" "X"
          (some [("Slug", CtxVal.vstr "s")])).cache
        "onArticleRender" "X" (some [("Slug", CtxVal.vstr "s")])).result
      = (ExecutePipeline [appendRender "p1" 1 "-1"] [] "onArticleRender" "X"
          (some [("Slug", CtxVal.vstr "s")])).result
    ∧ (ExecutePipeline [appendRender "p1" 1 "-2"]
        (ExecutePipeline [appendRender "p1" 1 "-1"] [] "onArticleRender" "X"
          (some [("Slug", CtxVal.vstr "s")])).cache
        "onArticleRender" "X" (some [("Slug", CtxVal.vstr "s")])).enqueued
      = false
    ∧ (ExecutePipeline [appendRender "p1" 1 "-1"] [] "onArticleRender" "X"
        (some [("Slug", CtxVal.vstr "s")])).result = "X-1" :=
  ⟨(C4_cache_hit [appendRender "p1" 1 "-1"] [appendRender "p1" 1 "-2"] []
      "onArticleRender" "X" (some [("Slug", CtxVal.vstr "s")])
      (some [("Slug", CtxVal.vstr "s")]) rfl rfl (by decide) (by decide)).1,
   (C4_cache_hit [appendRender "p1" 1 "-1"] [appendRender "p1" 1 "-2"] []
      "onArticleRender" "X" (some [("Slug", CtxVal.vstr "s")])
      (some [("Slug", CtxVal.vstr "s")]) rfl rfl (by decide) (by decide)).2.1,
   by decide⟩

theorem cacheGet_invalidate (c : Cache) (s k : String) :
    cacheGet (invalidateSlug c s) k
      = if strContains k (":" ++ s ++ ":") = true then none
        else cacheGet c k := by
  induction c with
  | nil => simp [invalidateSlug, cacheGet]
  | cons kv rest ih =>
    by_cases hkv : strContains kv.1 (":" ++ s ++ ":") = true
    · have hdrop : invalidateSlug (kv :: rest) s = invalidateSlug rest s := by
        simp [invalidateSlug, hkv]
      rw [hdrop, ih]
      by_cases hk : strContains k (":" ++ s ++ ":") = true
      · rw [if_pos hk, if_pos hk]
      · rw [if_neg hk, if_neg hk]
        have hne : (kv.1 == k) = false := by
          rcases hbe : kv.1 == k with _ | _
          · rfl
          · exact absurd (by rwa [eq_of_beq hbe] at hkv) hk
        simp [cacheGet, List.find?, hne]
    · have hkeep : invalidateSlug (kv :: rest) s
          = kv :: invalidateSlug rest s := by
        simp [invalidateSlug, hkv]
      rw [hkeep]
      by_cases hbe : (kv.1 == k) = true
      · have hkk : strContains k (":" ++ s ++ ":") ≠ true := by
          rwa [eq_of_beq hbe] at hkv
        rw [if_neg hkk]
        simp [cacheGet, List.find?, hbe]
      · have hbe2 : (kv.1 == k) = false := by
          rcases h2 : kv.1 == k with _ | _
          · rfl
          · exact absurd h2 hbe
        simp only [cacheGet, List.find?, hbe2]
        rw [← cacheGet, ← cacheGet, ih]

/-- C5 fails as stated: after a successful action with slug "S", a
previously cached render whose key contains "S" (here under the slug
"Sx", whose key embeds "S" as a plain substring) is still in the cache,
because the code only deletes keys containing ":S:" with both
delimiters. -/
theorem C5_invalidation_counterexample :
    (ExecutePluginAction [actionOkPlugin "q" 1]
        (ExecutePipeline [appendRender "p" 1 "-A"] [] "onArticleRender"
          "body" (some [("Slug", CtxVal.vstr "Sx")])).cache
        "q" "go" "" (some [("Slug", CtxVal.vstr "S")])).err = none
    ∧ strContains
        (pipelineCacheKey "onArticleRender" "Sx" "body" 0) "S" = true
    ∧ cacheGet
        (ExecutePipeline [appendRender "p" 1 "-A"] [] "onArticleRender"
          "body" (some [("Slug", CtxVal.vstr "Sx")])).cache
        (pipelineCacheKey "onArticleRender" "Sx" "body" 0)
      = some "body-A"
    ∧ cacheGet
        (ExecutePluginAction [actionOkPlugin "q" 1]
          (ExecutePipeline [appendRender "p" 1 "-A"] [] "onArticleRender"
            "body" (some [("Slug", CtxVal.vstr "Sx")])).cache
          "q" "go" "" (some [("Slug", CtxVal.vstr "S")])).cache
        (pipelineCacheKey "onArticleRender" "Sx" "body" 0)
      = some "body-A" := by
  refine ⟨by decide, by decide, by decide, by decide⟩

/-- C5 amended: after a successful `ExecutePluginAction` whose context
carries a non-empty slug S, exactly the cache entries whose key contains
":" ++ S ++ ":" (the slug embedded between its delimiters) are removed;
every other entry, in particular every key not containing the delimited
slug, is untouched. -/
theorem C5_invalidation_scope (plugins : List PluginRT) (cache : Cache)
    (pid action payload : String) (ctx : ContextData)
    (hsucc : (processActionJob plugins pid action payload).err = none)
    (hs : slugOf ctx ≠ "") (k : String) :
    cacheGet (ExecutePluginAction plugins cache pid action payload ctx).cache
        k
      = if strContains k (":" ++ slugOf ctx ++ ":") = true then none
        else cacheGet cache k := by
  cases ctx with
  | none => exact absurd rfl hs
  | some m =>
    cases hsl : ctxLookup m "Slug" with
    | none => simp [slugOf, hsl] at hs
    | some v =>
      cases v with
      | vstr s =>
        have hslug : slugOf (some m) = s := by simp [slugOf, hsl]
        rw [hslug] at hs ⊢
        simp only [ExecutePluginAction, if_pos hsucc, hsl]
        rw [if_pos hs]
        exact cacheGet_invalidate cache s k
      | vuser r => simp [slugOf, hsl] at hs
      | vother => simp [slugOf, hsl] at hs

/-- Closed instance of the amended C5: a successful action with slug "S"
removes the entry whose key embeds ":S:" and keeps an entry for another
slug. -/
theorem C5_invalidation_scope_witness :
    cacheGet
      (ExecutePluginAction [actionOkPlugin "q" 1]
        [("pipeline:onArticleRender:S:aa:0", "v1"),
         ("pipeline:onArticleRender:T:aa:0", "v2")]
        "q" "go" "" (some [("Slug", CtxVal.vstr "S")])).cache
      "pipeline:onArticleRender:S:aa:0" = none
    ∧ cacheGet
        (ExecutePluginAction [actionOkPlugin "q" 1]
          [("pipeline:onArticleRender:S:aa:0", "v1"),
           ("pipeline:onArticleRender:T:aa:0", "v2")]
          "q" "go" "" (some [("Slug", CtxVal.vstr "S")])).cache
        "pipeline:onArticleRender:T:aa:0" = some "v2" := by
  refine ⟨?_, ?_⟩
  · exact (C5_invalidation_scope [actionOkPlugin "q" 1]
      [("pipeline:onArticleRender:S:aa:0", "v1"),
       ("pipeline:onArticleRender:T:aa:0", "v2")] "q" "go" ""
      (some [("Slug", CtxVal.vstr "S")]) (by decide) (by decide)
      "pipeline:onArticleRender:S:aa:0").trans (by decide)
  · exact (C5_invalidation_scope [actionOkPlugin "q" 1]
      [("pipeline:onArticleRender:S:aa:0", "v1"),
       ("pipeline:onArticleRender:T:aa:0", "v2")] "q" "go" ""
      (some [("Slug", CtxVal.vstr "S")]) (by decide) (by decide)
      "pipeline:onArticleRender:T:aa:0").trans (by decide)

/-- C6: whenever the action response is structured data with a non-empty
error field — including the structured not-found response produced when
no plugin with the requested id defines onAction — ExecutePluginAction
surfaces that message as the call's error and touches no cache entry. -/
theorem C6_action_error :
    (∀ (plugins : List PluginRT) (cache : Cache)
       (pid action payload : String) (ctx : ContextData) (e rest : String),
       e ≠ "" →
       runPluginAction plugins pid action payload
         = .ret (.obj (some e) rest) →
       (ExecutePluginAction plugins cache pid action payload ctx).err
           = some ("plugin action error: " ++ e)
         ∧ (ExecutePluginAction plugins cache pid action payload ctx).cache
           = cache)
    ∧ (∀ (plugins : List PluginRT) (cache : Cache)
       (pid action payload : String) (ctx : ContextData),
       findPlugin plugins pid = none →
       (ExecutePluginAction plugins cache pid action payload ctx).err
           = some "plugin action error: Plugin or action not found"
         ∧ (ExecutePluginAction plugins cache pid action payload ctx).cache
           = cache) := by
  have hmain : ∀ (plugins : List PluginRT) (cache : Cache)
      (pid action payload : String) (ctx : ContextData) (e rest : String),
      e ≠ "" →
      runPluginAction plugins pid action payload
        = .ret (.obj (some e) rest) →
      (ExecutePluginAction plugins cache pid action payload ctx).err
          = some ("plugin action error: " ++ e)
        ∧ (ExecutePluginAction plugins cache pid action payload ctx).cache
          = cache := by
    intro plugins cache pid action payload ctx e rest he hv
    have hresp : (processActionJob plugins pid action payload).err
        = some ("plugin action error: " ++ e) := by
      simp [processActionJob, hv, stringifyAction, he]
    constructor
    · simp [ExecutePluginAction, hresp]
    · simp [ExecutePluginAction, hresp]
  refine ⟨hmain, ?_⟩
  intro plugins cache pid action payload ctx hfp
  have hv : runPluginAction plugins pid action payload
      = .ret (.obj (some "Plugin or action not found") "") := by
    simp [runPluginAction, hfp]
  exact hmain plugins cache pid action payload ctx
    "Plugin or action not found" "" (by decide) hv

/-- Closed instance of C6: an action on a missing plugin id fails with
the not-found message and leaves the cache entry in place. -/
theorem C6_action_error_witness :
    (ExecutePluginAction [] [("k", "v")] "missing-id" "any" ""
        (some [("Slug", CtxVal.vstr "S")])).err
      = some "plugin action error: Plugin or action not found"
    ∧ (ExecutePluginAction [] [("k", "v")] "missing-id" "any" ""
        (some [("Slug", CtxVal.vstr "S")])).cache = [("k", "v")] :=
  C6_action_error.2 [] [("k", "v")] "missing-id" "any" ""
    (some [("Slug", CtxVal.vstr "S")]) rfl

theorem foldl_md5Block_lt (blocks : List (List Nat)) (st : MDState)
    (h : st.a < pow32 ∧ st.b < pow32 ∧ st.c < pow32 ∧ st.d < pow32) :
    (blocks.foldl md5Block st).a < pow32
    ∧ (blocks.foldl md5Block st).b < pow32
    ∧ (blocks.foldl md5Block st).c < pow32
    ∧ (blocks.foldl md5Block st).d < pow32 := by
  induction blocks generalizing st with
  | nil => exact h
  | cons b bs ih =>
    refine ih (md5Block st b) ?_
    refine ⟨?_, ?_, ?_, ?_⟩ <;> exact Nat.mod_lt _ (by norm_num)

theorem md5Words_lt (msg : List Nat) :
    (md5Words msg).a < pow32 ∧ (md5Words msg).b < pow32
    ∧ (md5Words msg).c < pow32 ∧ (md5Words msg).d < pow32 :=
  foldl_md5Block_lt _ md5Init (by refine ⟨?_, ?_, ?_, ?_⟩ <;> norm_num [md5Init, pow32])

theorem strEq_of_data (a b : String) (h : a.data = b.data) : a = b :=
  String.ext h

/-- C7 fails as stated: it is not true that any two different contents
give different cache keys for the same hook, slug and role — the key's
content fingerprint is a 128-bit MD5 digest, so by pigeonhole two
distinct contents must collide on the full key. -/
theorem C7_cache_key_counterexample :
    ¬ (∀ c1 c2 : String, c1 ≠ c2 →
        pipelineCacheKey "onArticleRender" "s" c1 0
          ≠ pipelineCacheKey "onArticleRender" "s" c2 0) := by
  intro h
  obtain ⟨x, y, hxy, hf⟩ :=
    Finite.exists_ne_map_eq_of_infinite (fun n => digestFin (mkStr n))
  have hsne : mkStr x ≠ mkStr y := by
    intro he
    apply hxy
    have hdd := congrArg String.data he
    simp only [mkStr] at hdd
    simpa using congrArg List.length hdd
  have h1 : (md5Words (strBytes (mkStr x))).a
      = (md5Words (strBytes (mkStr y))).a := by
    have hmx : (md5Words (strBytes (mkStr x))).a % pow32
        = (md5Words (strBytes (mkStr y))).a % pow32 :=
      congrArg (fun t => t.1.val) hf
    rwa [Nat.mod_eq_of_lt (md5Words_lt _).1,
      Nat.mod_eq_of_lt (md5Words_lt _).1] at hmx
  have h2 : (md5Words (strBytes (mkStr x))).b
      = (md5Words (strBytes (mkStr y))).b := by
    have hmx : (md5Words (strBytes (mkStr x))).b % pow32
        = (md5Words (strBytes (mkStr y))).b % pow32 :=
      congrArg (fun t => t.2.1.val) hf
    rwa [Nat.mod_eq_of_lt (md5Words_lt _).2.1,
      Nat.mod_eq_of_lt (md5Words_lt _).2.1] at hmx
  have h3 : (md5Words (strBytes (mkStr x))).c
      = (md5Words (strBytes (mkStr y))).c := by
    have hmx : (md5Words (strBytes (mkStr x))).c % pow32
        = (md5Words (strBytes (mkStr y))).c % pow32 :=
      congrArg (fun t => t.2.2.1.val) hf
    rwa [Nat.mod_eq_of_lt (md5Words_lt _).2.2.1,
      Nat.mod_eq_of_lt (md5Words_lt _).2.2.1] at hmx
  have h4 : (md5Words (strBytes (mkStr x))).d
      = (md5Words (strBytes (mkStr y))).d := by
    have hmx : (md5Words (strBytes (mkStr x))).d % pow32
        = (md5Words (strBytes (mkStr y))).d % pow32 :=
      congrArg (fun t => t.2.2.2.val) hf
    rwa [Nat.mod_eq_of_lt (md5Words_lt _).2.2.2,
      Nat.mod_eq_of_lt (md5Words_lt _).2.2.2] at hmx
  have hhex : md5hex (mkStr x) = md5hex (mkStr y) := by
    show bytesToHex (le4 (md5Words (strBytes (mkStr x))).a
        ++ le4 (md5Words (strBytes (mkStr x))).b
        ++ le4 (md5Words (strBytes (mkStr x))).c
        ++ le4 (md5Words (strBytes (mkStr x))).d)
      = bytesToHex (le4 (md5Words (strBytes (mkStr y))).a
        ++ le4 (md5Words (strBytes (mkStr y))).b
        ++ le4 (md5Words (strBytes (mkStr y))).c
        ++ le4 (md5Words (strBytes (mkStr y))).d)
    rw [h1, h2, h3, h4]
  exact h (mkStr x) (mkStr y) hsne (by unfold pipelineCacheKey; rw [hhex])

/-- C7 amended: the cache key is injective in the content's MD5 digest —
two contents whose digests differ (in particular, almost every
one-character change) give different cache keys and hence a cache miss;
only an outright MD5 collision can be served the other content's cached
result. -/
theorem C7_cache_key_digest (hook slug c1 c2 : String) (role : Int)
    (hd : md5hex c1 ≠ md5hex c2) :
    pipelineCacheKey hook slug c1 role
      ≠ pipelineCacheKey hook slug c2 role := by
  intro h
  apply hd
  have hdata := congrArg String.data h
  simp only [pipelineCacheKey, String.data_append, List.append_assoc] at hdata
  have e1 := List.append_cancel_left hdata
  have e2 := List.append_cancel_left e1
  have e3 := List.append_cancel_left e2
  have e4 := List.append_cancel_left e3
  have e5 := List.append_cancel_left e4
  exact strEq_of_data _ _ (List.append_cancel_right e5)

/-- Closed instance of the amended C7: "X" and "Y" have different
digests and therefore different cache keys. -/
theorem C7_cache_key_digest_witness :
    md5hex "X" ≠ md5hex "Y"
    ∧ pipelineCacheKey "onArticleRender" "s" "X" 0
        ≠ pipelineCacheKey "onArticleRender" "s" "Y" 0 :=
  ⟨by decide, C7_cache_key_digest "onArticleRender" "s" "X" "Y" 0 (by decide)⟩

/-- C8: when the underlying store fails, the error never reaches the
sandbox: the storage bridge returns the empty string from get, failure
(0) from set and delete, and the empty array from list. -/
theorem C8_storage_fault_swallowed (st : StoreState)
    (pid key val pfx : String) :
    hostStorageGet st true pid key = ""
    ∧ (hostStorageSet st true pid key val).2 = 0
    ∧ (hostStorageDelete st true pid key).2 = 0
    ∧ hostStorageList st true pid pfx = [] :=
  ⟨rfl, rfl, rfl, rfl⟩

/-- C9: a plugin without the requested hook is skipped with the content
passed through unchanged, and a hook returning a non-string value leaves
the content unchanged as well; neither case adds a plugin error. -/
theorem C9_missing_or_nonstring_hook (p : PluginRT) (ps : List PluginRT)
    (hook c : String) :
    (p.hooks hook = none →
       runPipeline (p :: ps) hook c = runPipeline ps hook c)
    ∧ (∀ f, p.hooks hook = some f → f c = .ret .other →
       runPipeline (p :: ps) hook c
         = ⟨(runPipeline ps hook c).content,
            (runPipeline ps hook c).errors,
            p.id :: (runPipeline ps hook c).calls⟩) := by
  constructor
  · intro hn
    have happ : applyHook p hook c = (c, none, false) := by
      simp [applyHook, hn]
    simp only [runPipeline, happ]
    simp
  · intro f hf ho
    have happ : applyHook p hook c = (c, none, true) := by
      simp [applyHook, hf, ho]
    simp only [runPipeline, happ]
    simp

/-- Closed instance of C9: a plugin with no render hook and a plugin
returning a non-string both pass "X" through with no error entries. -/
theorem C9_missing_or_nonstring_hook_witness :
    runPipeline [actionOkPlugin "n" 1, appendRender "b" 2 "-B"]
        "onArticleRender" "X"
      = runPipeline [appendRender "b" 2 "-B"] "onArticleRender" "X"
    ∧ runPipeline [nonStringRender "o" 1, appendRender "b" 2 "-B"]
        "onArticleRender" "X"
      = ⟨(runPipeline [appendRender "b" 2 "-B"] "onArticleRender" "X").content,
         (runPipeline [appendRender "b" 2 "-B"] "onArticleRender" "X").errors,
         "o" :: (runPipeline [appendRender "b" 2 "-B"] "onArticleRender"
           "X").calls⟩ :=
  ⟨(C9_missing_or_nonstring_hook (actionOkPlugin "n" 1)
      [appendRender "b" 2 "-B"] "onArticleRender" "X").1 rfl,
   (C9_missing_or_nonstring_hook (nonStringRender "o" 1)
      [appendRender "b" 2 "-B"] "onArticleRender" "X").2
     (fun _ => .ret .other) rfl rfl⟩

/-- C10: with a nil context map, a missing "Slug" key, a non-string
value or an empty slug string, ExecutePipeline neither reads nor writes
the cache — its outputs are independent of the cache contents, the job
is always enqueued, and the cache is returned unchanged — and a
successful ExecutePluginAction deletes no cache entry. -/
theorem C10_no_slug_frame (plugins : List PluginRT) (c1 c2 : Cache)
    (hook input : String) (ctx : ContextData)
    (pid action payload : String)
    (h : ctx = none
       ∨ (∃ m, ctx = some m ∧ ctxLookup m "Slug" = none)
       ∨ (∃ m v, ctx = some m ∧ ctxLookup m "Slug" = some v
            ∧ ∀ s, v ≠ CtxVal.vstr s)
       ∨ (∃ m, ctx = some m ∧ ctxLookup m "Slug" = some (CtxVal.vstr ""))) :
    (ExecutePipeline plugins c1 hook input ctx).cache = c1
    ∧ (ExecutePipeline plugins c1 hook input ctx).enqueued = true
    ∧ (ExecutePipeline plugins c1 hook input ctx).result
        = (ExecutePipeline plugins c2 hook input ctx).result
    ∧ (ExecutePipeline plugins c1 hook input ctx).errors
        = (ExecutePipeline plugins c2 hook input ctx).errors
    ∧ (ExecutePluginAction plugins c1 pid action payload ctx).cache = c1 := by
  have hslug : slugOf ctx = "" := by
    rcases h with rfl | ⟨m, rfl, hm⟩ | ⟨m, v, rfl, hm, hv⟩ | ⟨m, rfl, hm⟩
    · rfl
    · simp [slugOf, hm]
    · cases v with
      | vstr s => exact absurd rfl (hv s)
      | vuser r => simp [slugOf, hm]
      | vother => simp [slugOf, hm]
    · simp [slugOf, hm]
  have hck : computedCacheKey hook input ctx = "" := by
    simp [computedCacheKey, hslug]
  have hpipe : ∀ c : Cache, ExecutePipeline plugins c hook input ctx
      = ⟨(runPipeline plugins hook input).content,
         (runPipeline plugins hook input).errors, none, c, true,
         (runPipeline plugins hook input).calls⟩ := by
    intro c
    simp [ExecutePipeline, hck]
  have hact : (ExecutePluginAction plugins c1 pid action payload ctx).cache
      = c1 := by
    by_cases he : (processActionJob plugins pid action payload).err = none
    · rcases h with rfl | ⟨m, rfl, hm⟩ | ⟨m, v, rfl, hm, hv⟩ | ⟨m, rfl, hm⟩
      · simp [ExecutePluginAction, he]
      · simp [ExecutePluginAction, he, hm]
      · cases v with
        | vstr s => exact absurd rfl (hv s)
        | vuser r => simp [ExecutePluginAction, he, hm]
        | vother => simp [ExecutePluginAction, he, hm]
      · simp [ExecutePluginAction, he, hm]
    · simp [ExecutePluginAction, he]
  refine ⟨?_, ?_, ?_, ?_, hact⟩
  · rw [hpipe c1]
  · rw [hpipe c1]
  · rw [hpipe c1, hpipe c2]
  · rw [hpipe c1, hpipe c2]

/-- Closed instance of C10: a nil context and a non-string Slug value
both leave a populated cache untouched while the job still runs. -/
theorem C10_no_slug_frame_witness :
    (ExecutePipeline [appendRender "p" 1 "-A"] [("k", "v")] "onArticleRender"
        "X" none).cache = [("k", "v")]
    ∧ (ExecutePipeline [appendRender "p" 1 "-A"] [("k", "v")]
        "onArticleRender" "X" none).enqueued = true
    ∧ (ExecutePipeline [appendRender "p" 1 "-A"] [("k", "v")]
        "onArticleRender" "X" (some [("Slug", CtxVal.vother)])).cache
      = [("k", "v")]
    ∧ (ExecutePluginAction [actionOkPlugin "q" 1] [("k", "v")] "q" "go" ""
        none).cache = [("k", "v")] :=
  ⟨(C10_no_slug_frame [appendRender "p" 1 "-A"] [("k", "v")] []
      "onArticleRender" "X" none "q" "go" "" (Or.inl rfl)).1,
   (C10_no_slug_frame [appendRender "p" 1 "-A"] [("k", "v")] []
      "onArticleRender" "X" none "q" "go" "" (Or.inl rfl)).2.1,
   (C10_no_slug_frame [appendRender "p" 1 "-A"] [("k", "v")] []
      "onArticleRender" "X" (some [("Slug", CtxVal.vother)]) "q" "go" ""
      (Or.inr (Or.inr (Or.inl ⟨[("Slug", CtxVal.vother)], CtxVal.vother,
        rfl, rfl, fun _ hs => CtxVal.noConfusion hs⟩)))).1,
   (C10_no_slug_frame [actionOkPlugin "q" 1] [("k", "v")] []
      "onArticleRender" "X" none "q" "go" "" (Or.inl rfl)).2.2.2.2⟩
